import Mathlib

/-!
# Verification of the Chat2SVG stage-1 template-generation pipeline

Shallow embedding of `1_template_generation/{main.py, handler.py, api_wrapper.py,
runpod_config.py}`: the generate–refine–select pipeline, the two reward-scorer
variants, the serverless input validation, and the artifact paths.

External collaborators (the LLM session, the ImageReward/CLIP networks) are opaque
services; they enter the model as abstract functions (`resp`, `inferenceRank`,
feature lists), exactly at the call boundary the Python code uses.
-/

namespace Chat2SVG

/-! ## Artifact paths

`main.py` / `handler.py` / `api_wrapper.py` name per-iteration artifacts
`f"{png_dir}/{target}_{i}.png"` and `f"{svg_dir}/{target}_{i}.svg"`. -/

def pngPath (pngDir target : String) (i : Nat) : String :=
  pngDir ++ "/" ++ target ++ "_" ++ toString i ++ ".png"

def svgPath (svgDir target : String) (i : Nat) : String :=
  svgDir ++ "/" ++ target ++ "_" ++ toString i ++ ".svg"

/-! ## Pipeline trace (main.py `main`, handler.py `generate_svg`,
api_wrapper.py `_execute_generation` — the three entry points share this loop)

* Task 1: `session.send("expand_text_prompt", {...})` — no images.
* Task 2: `session.send("write_svg_code")` — no images; `save_svg(cfg, code, f"{target}_0")`.
* Task 3: `for i in range(1, refine_iter + 1): session.send("svg_refine", images=[png_path])`
  where `png_path` is the png of the previous iteration, then `save_svg` for iteration `i`.
-/

/-- One observable external step of the pipeline: a `session.send` call (with the
list of reference images passed) or the production of a raster render. -/
inductive Event where
  | send (task : String) (images : List String) : Event
  | render (png : String) : Event
deriving DecidableEq, Repr

/-- Modelled from the spec: `save_svg` lives in `utils/util.py`, which is not under
`src/`; per spec §4.1/§6 it persists the extracted SVG code and renders it to the
iteration's png (`f"{png_dir}/{name}.png"`) via the external Renderer.  We record
that as a `render` event for the iteration's png path. -/
def saveSvgEvent (pngDir target : String) (i : Nat) : Event :=
  .render (pngPath pngDir target i)

/-- The refinement loop `for i in range(1, refine_iter + 1)`, entered with the
current value of `png_path` in `cur`, loop counter `i`, and `fuel` iterations
remaining.  Each iteration sends `svg_refine` with exactly `images=[png_path]`,
renders iteration `i`, and updates `png_path` to iteration `i`'s png. -/
def refineTrace (pngDir target : String) (cur : String) (i : Nat) : Nat → List Event
  | 0 => []
  | fuel + 1 =>
    .send "svg_refine" [cur] :: saveSvgEvent pngDir target i ::
      refineTrace pngDir target (pngPath pngDir target i) (i + 1) fuel

/-- Full external trace of one run with `refine_iter = N`. -/
def mainTrace (pngDir target : String) (N : Nat) : List Event :=
  .send "expand_text_prompt" [] :: .send "write_svg_code" [] :: saveSvgEvent pngDir target 0 ::
    refineTrace pngDir target (pngPath pngDir target 0) 1 N

/-! ## Candidate data produced by the loop -/

/-- One iteration's artifact: its index, the raw model response saved by
`save(msg_path(i), svg_code)`, and the reference images passed to the
`session.send` call that produced it. -/
structure Candidate where
  index : Nat
  rawResponse : String
  refImages : List String
deriving DecidableEq, Repr

/-- Candidates produced by the refinement loop, mirroring `refineTrace`:
`resp i` is the (opaque) model response of iteration `i`. -/
def refineCandidates (resp : Nat → String) (pngDir target : String) (cur : String) (i : Nat) :
    Nat → List Candidate
  | 0 => []
  | fuel + 1 =>
    { index := i, rawResponse := resp i, refImages := [cur] } ::
      refineCandidates resp pngDir target (pngPath pngDir target i) (i + 1) fuel

/-- All candidates of one run: index 0 from `write_svg_code` (no images), then the
refinement loop. -/
def runCandidates (resp : Nat → String) (pngDir target : String) (N : Nat) : List Candidate :=
  { index := 0, rawResponse := resp 0, refImages := [] } ::
    refineCandidates resp pngDir target (pngPath pngDir target 0) 1 N

/-! ### Structural lemmas about the loop -/

theorem refineCandidates_length (resp : Nat → String) (pngDir target : String) :
    ∀ (fuel : Nat) (cur : String) (i : Nat),
      (refineCandidates resp pngDir target cur i fuel).length = fuel := by
  intro fuel
  induction fuel with
  | zero => intro cur i; rfl
  | succ m ih =>
    intro cur i
    simp [refineCandidates, ih]

theorem refineCandidates_get (resp : Nat → String) (pngDir target : String) :
    ∀ (fuel : Nat) (k j : Nat), j < fuel →
      (refineCandidates resp pngDir target (pngPath pngDir target k) (k + 1) fuel).get? j =
        some { index := k + 1 + j, rawResponse := resp (k + 1 + j),
               refImages := [pngPath pngDir target (k + j)] } := by
  intro fuel
  induction fuel with
  | zero => intro k j hj; omega
  | succ m ih =>
    intro k j hj
    cases j with
    | zero => simp [refineCandidates]
    | succ j' =>
      have hj' : j' < m := by omega
      have h := ih (k + 1) j' hj'
      have e1 : k + 1 + 1 + j' = k + 1 + (j' + 1) := by omega
      have e2 : k + 1 + j' = k + (j' + 1) := by omega
      rw [e1, e2] at h
      simpa only [refineCandidates, List.get?_cons_succ] using h

theorem runCandidates_length (resp : Nat → String) (pngDir target : String) (N : Nat) :
    (runCandidates resp pngDir target N).length = N + 1 := by
  simp [runCandidates, refineCandidates_length]

theorem runCandidates_get (resp : Nat → String) (pngDir target : String) (N : Nat) :
    ∀ k, k ≤ N →
      (runCandidates resp pngDir target N).get? k =
        some { index := k, rawResponse := resp k,
               refImages := if k = 0 then [] else [pngPath pngDir target (k - 1)] } := by
  intro k hk
  cases k with
  | zero => simp [runCandidates]
  | succ k' =>
    have hk' : k' < N := by omega
    have h := refineCandidates_get resp pngDir target N 0 k' hk'
    have e1 : 0 + 1 + k' = k' + 1 := by omega
    have e2 : 0 + k' = k' := by omega
    rw [e1, e2] at h
    simp only [runCandidates, List.get?_cons_succ]
    simpa using h

/-! ### Positions of sends and renders in the trace

In `mainTrace pngDir target N` the events sit at fixed offsets: the expansion send
at 0, the initial-generation send at 1, iteration 0's render at 2, and for each
refinement iteration `1 ≤ i ≤ N` the render of iteration `i - 1` at position `2*i`
and the `svg_refine` send for iteration `i` at position `2*i + 1`. -/

theorem refineTrace_get (pngDir target : String) :
    ∀ (fuel : Nat) (k j : Nat), j < fuel →
      (refineTrace pngDir target (pngPath pngDir target k) (k + 1) fuel).get? (2 * j) =
          some (.send "svg_refine" [pngPath pngDir target (k + j)]) ∧
        (refineTrace pngDir target (pngPath pngDir target k) (k + 1) fuel).get? (2 * j + 1) =
          some (.render (pngPath pngDir target (k + j + 1))) := by
  intro fuel
  induction fuel with
  | zero => intro k j hj; omega
  | succ m ih =>
    intro k j hj
    cases j with
    | zero =>
      constructor
      · simp [refineTrace]
      · simp [refineTrace, saveSvgEvent]
    | succ j' =>
      have hj' : j' < m := by omega
      have h := ih (k + 1) j' hj'
      have e1 : k + 1 + j' = k + (j' + 1) := by omega
      rw [e1] at h
      have p1 : 2 * (j' + 1) = 2 * j' + 1 + 1 := by omega
      rw [p1]
      simpa only [refineTrace, List.get?_cons_succ] using h

theorem mainTrace_refine_events (pngDir target : String) (N : Nat) :
    ∀ i, 1 ≤ i → i ≤ N →
      (mainTrace pngDir target N).get? (2 * i) =
          some (.render (pngPath pngDir target (i - 1))) ∧
        (mainTrace pngDir target N).get? (2 * i + 1) =
          some (.send "svg_refine" [pngPath pngDir target (i - 1)]) := by
  intro i h1 hN
  cases i with
  | zero => omega
  | succ i' =>
    cases i' with
    | zero =>
      have h := refineTrace_get pngDir target N 0 0 (by omega)
      constructor
      · simp [mainTrace, saveSvgEvent]
      · show (mainTrace pngDir target N).get? 3 = _
        simpa [mainTrace] using h.1
    | succ i'' =>
      -- 2 * (i'' + 2) = (2 * i'' + 1) + 3 and 2 * (i'' + 2) + 1 = (2 * (i'' + 1)) + 3,
      -- so both positions land in `refineTrace` after the three fixed prefix events.
      have hr := refineTrace_get pngDir target N 0 (i'' + 1) (by omega)
      have hs := refineTrace_get pngDir target N 0 i'' (by omega)
      constructor
      · have p : 2 * (i'' + 1 + 1) = (2 * i'' + 1) + 3 := by omega
        rw [p]
        have e : 0 + i'' + 1 = i'' + 1 + 1 - 1 := by omega
        rw [e] at hs
        simpa only [mainTrace, List.get?_cons_succ] using hs.2
      · have p : 2 * (i'' + 1 + 1) + 1 = 2 * (i'' + 1) + 3 := by omega
        rw [p]
        have e : 0 + (i'' + 1) = i'' + 1 + 1 - 1 := by omega
        rw [e] at hr
        simpa only [mainTrace, List.get?_cons_succ] using hr.1

/-! ## Python string sorting

The selectors collect renders with `png_files = sorted(glob(f"{png_dir}/*.png"))`.
Python sorts strings lexicographically by code point; we model that with a
structural Boolean lexicographic comparison on the character lists (kept
executable so counterexamples evaluate in the kernel). -/

/-- Lexicographic `≤` on character lists, by code point, as Python compares strings. -/
def charListLe : List Char → List Char → Bool
  | [], _ => true
  | _ :: _, [] => false
  | a :: as, b :: bs => if a < b then true else if b < a then false else charListLe as bs

/-- Python's string `≤` (lexicographic by code point). -/
def pyLe (a b : String) : Prop := charListLe a.data b.data = true

instance (a b : String) : Decidable (pyLe a b) := by unfold pyLe; infer_instance

/-- Python's `sorted` on a list of strings. -/
def pySorted (l : List String) : List String := List.insertionSort pyLe l

/-- The scorer input assembled by `sorted(glob(f"{png_dir}/*.png"))`: `present` is
the set of iteration indices whose render exists in `png_dir` (only iteration
renders are ever written there). -/
def sortedPngs (pngDir target : String) (present : List Nat) : List String :=
  pySorted (present.map (pngPath pngDir target))

theorem charListLe_append : ∀ (p u v : List Char), charListLe (p ++ u) (p ++ v) = charListLe u v := by
  intro p
  induction p with
  | nil => intro u v; rfl
  | cons c cs ih => intro u v; simp [charListLe, lt_irrefl, ih]

/-- For single-digit iteration indices the artifact filenames compare like the
indices themselves. -/
theorem pngPath_pyLe (d t : String) {i j : Nat} (hij : i ≤ j) (hj : j ≤ 9) :
    pyLe (pngPath d t i) (pngPath d t j) := by
  show charListLe _ _ = true
  simp only [pngPath, String.data_append, List.append_assoc]
  rw [charListLe_append, charListLe_append, charListLe_append, charListLe_append]
  interval_cases j <;> interval_cases i <;> decide

/-- With every iteration 0..N rendered and `N ≤ 9`, the sorted glob is exactly the
candidates in index order. -/
theorem sortedPngs_all_present (d t : String) (N : Nat) (hN : N ≤ 9) :
    sortedPngs d t (List.range (N + 1)) = (List.range (N + 1)).map (pngPath d t) := by
  unfold sortedPngs pySorted
  apply List.Sorted.insertionSort_eq
  apply List.Pairwise.map (R := fun a b : Nat => pyLe (pngPath d t a) (pngPath d t b))
    (pngPath d t) (fun a b h => h)
  rw [List.pairwise_iff_getElem]
  intro a b ha hb hab
  simp only [List.getElem_range]
  exact pngPath_pyLe d t (Nat.le_of_lt hab) (by simp at hb; omega)

/-! ## Reward-based selection (`handler.py` `SVGGenerator.select_best_svg`,
`main.py` `select_best_svg`, `api_wrapper.py` `_select_best_svg`)

The ImageReward branch delegates to the external pretrained ranker
(`model.inference_rank(prompt, png_files)`), modelled as the opaque function
`inferenceRank`, and takes `best_index = ranking[0] - 1`. -/

/-- `best_index = ranking[0] - 1` (ImageReward's ordering is 1-based); `ranking[0]`
on an empty ranking raises `IndexError`. -/
def imageRewardBestIndex (ranking : List Int) : Except String Int :=
  match ranking.head? with
  | none => .error "IndexError: list index out of range"
  | some r0 => .ok (r0 - 1)

/-- `handler.py` `select_best_svg` (ImageReward branch): sort the rendered pngs,
fail if there are none (`raise ValueError("No PNG files found for ranking")`),
otherwise score and return `(f"{svg_dir}/{target}_{best_index}.svg", best_index)`. -/
def selectBestSvg (svgDir pngDir target prompt : String) (present : List Nat)
    (inferenceRank : String → List String → List Int) : Except String (String × Int) :=
  let pngFiles := sortedPngs pngDir target present
  if pngFiles.isEmpty then
    .error "No PNG files found for ranking"
  else
    match imageRewardBestIndex (inferenceRank prompt pngFiles) with
    | .error e => .error e
    | .ok bi => .ok (svgDir ++ "/" ++ target ++ "_" ++ toString bi ++ ".svg", bi)

/-! ## `api_wrapper.py` directory layout and canonical copy -/

/-- Output directories set up by `TemplateGenerator.generate`:
`root_dir = f"{output_base_path}/{output_folder or target}"`,
`output_folder = f"{root_dir}/stage_1"`, and the three log dirs under it. -/
structure ApiDirs where
  rootDir : String
  stageDir : String
  svgDir : String
  pngDir : String
  msgDir : String
deriving DecidableEq, Repr

def apiDirs (outputBasePath : String) (outputFolder : Option String) (target : String) : ApiDirs :=
  let root := outputBasePath ++ "/" ++ outputFolder.getD target
  let stage := root ++ "/stage_1"
  { rootDir := root, stageDir := stage, svgDir := stage ++ "/svg_logs",
    pngDir := stage ++ "/png_logs", msgDir := stage ++ "/raw_logs" }

/-- Result of `_select_best_svg`'s final `shutil.copy`: the copied file, its
destination, and the returned index. -/
structure CopyResult where
  src : String
  dest : String
  bestIndex : Int
deriving DecidableEq, Repr

/-- `api_wrapper.py` `TemplateGenerator._select_best_svg` (ImageReward branch):
score the sorted pngs, then
`shutil.copy(f"{cfg.svg_dir}/{cfg.target}_{best_index}.svg", f"{cfg.root_dir}/{cfg.target}_template.svg")`
and return `best_index`.  (This entry point performs no empty-glob check.) -/
def apiSelectBestSvg (outputBasePath : String) (outputFolder : Option String)
    (target prompt : String) (present : List Nat)
    (inferenceRank : String → List String → List Int) : Except String CopyResult :=
  let dirs := apiDirs outputBasePath outputFolder target
  match imageRewardBestIndex (inferenceRank prompt (sortedPngs dirs.pngDir target present)) with
  | .error e => .error e
  | .ok bi =>
    .ok { src := dirs.svgDir ++ "/" ++ target ++ "_" ++ toString bi ++ ".svg",
          dest := dirs.rootDir ++ "/" ++ target ++ "_template.svg",
          bestIndex := bi }

/-! ## Reward-model cache (`handler.py` `SVGGenerator.initialize_reward_model`)

The handler object holds `self.reward_model` (the loaded model object, identified
here by a `Nat` tag) and `self.reward_model_name`; a load happens iff
`self.reward_model is None or self.reward_model_name != model_name`. -/

structure SVGGeneratorState where
  rewardModel : Option Nat
  rewardModelName : Option String
deriving DecidableEq, Repr

/-- One call to `initialize_reward_model(model_name)`: `fresh` tags the newly
loaded model object if a load happens.  Returns the new state and whether an
(expensive) load occurred. -/
def initializeRewardModel (st : SVGGeneratorState) (modelName : String) (fresh : Nat) :
    SVGGeneratorState × Bool :=
  if st.rewardModel = none ∨ st.rewardModelName ≠ some modelName then
    ({ rewardModel := some fresh, rewardModelName := some modelName }, true)
  else
    (st, false)

/-- A sequence of scoring calls against one generator object, recording for each
requested variant name whether it triggered a model load. -/
def loadSequence (st : SVGGeneratorState) (fresh : Nat) : List String → List (String × Bool)
  | [] => []
  | n :: ns =>
    let r := initializeRewardModel st n fresh
    (n, r.2) :: loadSequence r.1 (fresh + 1) ns

/-- How many times the model for variant `name` is loaded over a call sequence
starting from a fresh process (`self.reward_model = None`). -/
def loadCount (calls : List String) (name : String) : Nat :=
  ((loadSequence { rewardModel := none, rewardModelName := none } 0 calls).filter
    (fun p => p.1 = name && p.2)).length

/-! ## Serverless handler flow (`handler.py` `handler` + `generate_svg`)

`handler(event)` checks `"prompt" in job_input`, then validates `reward_model`,
and only then calls `generator.generate_svg(...)`, which performs the external
calls of `mainTrace`.  `refine_iter` is forwarded unvalidated; a negative value
makes `range(1, refine_iter + 1)` empty (modelled by `Int.toNat`). -/

structure HandlerInput where
  prompt : Option String
  target : String
  refineIter : Int
  rewardModel : String
deriving DecidableEq, Repr

/-- External calls performed and error returned (if any) by one `handler(event)`
invocation, up to and including the generation loop. -/
def handlerRun (pngDir : String) (inp : HandlerInput) : List Event × Option String :=
  match inp.prompt with
  | none => ([], some "Missing required parameter: prompt")
  | some _ =>
    if inp.rewardModel = "ImageReward" ∨ inp.rewardModel = "CLIP" then
      (mainTrace pngDir inp.target inp.refineIter.toNat, none)
    else
      ([], some ("Invalid reward_model: " ++ inp.rewardModel ++
        ". Must be 'ImageReward' or 'CLIP'"))

/-- CLI flow (`main.py` `main`): the full generation loop runs first, and only
then does `select_best_svg` check the variant name via
`assert model_name in ["ImageReward", "CLIP"]`. -/
def mainRunSelect (pngDir target : String) (N : Nat) (rewardModel : String) :
    List Event × Except String Unit :=
  let trace := mainTrace pngDir target N
  if rewardModel = "ImageReward" ∨ rewardModel = "CLIP" then
    (trace, .ok ())
  else
    (trace, .error "Only `ImageReward` and `CLIP` are supported")

/-! ## Input validation (`runpod_config.py` `RunPodConfig.validate_input`) -/

/-- Python values as they can appear in a job-input field.  `pyBool` is kept
separate because Python's `bool` is a subclass of `int` (`isinstance(True, int)`
holds, with values `1`/`0`). -/
inductive PyVal where
  | pyInt : Int → PyVal
  | pyBool : Bool → PyVal
  | pyStr : String → PyVal
  | pyNone : PyVal
deriving DecidableEq, Repr

/-- `str(x)` as used by the f-string error messages. -/
def pyFormat : PyVal → String
  | .pyInt n => toString n
  | .pyBool b => if b then "True" else "False"
  | .pyStr s => s
  | .pyNone => "None"

/-- `isinstance(x, int)` (true for `bool` values too). -/
def pyIsInt : PyVal → Bool
  | .pyInt _ => true
  | .pyBool _ => true
  | _ => false

/-- Numeric value of an `int`-like `PyVal`; only consulted after `pyIsInt`
(Python's `or` short-circuits before the comparison otherwise). -/
def pyToInt : PyVal → Int
  | .pyInt n => n
  | .pyBool b => if b then 1 else 0
  | _ => 0

/-- Python's `str.strip()`: drop leading and trailing whitespace (kept structural
so concrete inputs evaluate in the kernel). -/
def pyStrip (s : String) : String :=
  ⟨((s.data.dropWhile Char.isWhitespace).reverse.dropWhile Char.isWhitespace).reverse⟩

/-- The fields of the RunPod job input that `validate_input` reads; `none` means
the key is absent and the documented default applies. -/
structure JobInput where
  prompt : Option PyVal := none
  rewardModel : Option PyVal := none
  viewbox : Option PyVal := none
  refineIter : Option PyVal := none

/-- `RunPodConfig.validate_input(job_input) -> (is_valid, error_message)`.
An `Except.error` models an uncaught Python exception
(`job_input["prompt"].strip()` on a non-string raises `AttributeError`). -/
def validateInput (j : JobInput) : Except String (Bool × String) :=
  match j.prompt with
  | none => .ok (false, "Missing required parameter: prompt")
  | some p =>
    match p with
    | .pyStr s =>
      if pyStrip s = "" then .ok (false, "Parameter 'prompt' cannot be empty")
      else
        let rm := j.rewardModel.getD (.pyStr "ImageReward")
        if ¬(rm = .pyStr "ImageReward" ∨ rm = .pyStr "CLIP") then
          .ok (false, "Invalid reward_model: " ++ pyFormat rm ++
            ". Must be 'ImageReward' or 'CLIP'")
        else
          let vb := j.viewbox.getD (.pyInt 512)
          if ¬pyIsInt vb ∨ pyToInt vb ≤ 0 then
            .ok (false, "Invalid viewbox: " ++ pyFormat vb ++ ". Must be a positive integer")
          else
            let ri := j.refineIter.getD (.pyInt 2)
            if ¬pyIsInt ri ∨ pyToInt ri < 0 then
              .ok (false, "Invalid refine_iter: " ++ pyFormat ri ++
                ". Must be a non-negative integer")
            else if pyToInt ri > 10 then
              .ok (false, "refine_iter too high: " ++ pyFormat ri ++
                ". Maximum is 10 to prevent timeouts")
            else
              .ok (true, "")
    | _ => .error "AttributeError: object has no attribute strip"

/-- A job input with all four keys present and a string prompt. -/
def jobWith (p : String) (rm vb ri : PyVal) : JobInput :=
  { prompt := some (.pyStr p), rewardModel := some rm, viewbox := some vb,
    refineIter := some ri }

/-! ## Similarity-based scorer (CLIP branch of `select_best_svg`)

The dual encoder is external; the embedding of each image and of the prompt enter
the model as lists of reals.  The code then L2-normalizes
(`features /= features.norm(dim=-1, keepdim=True)`), computes
`similarity = (100.0 * image_features @ text_features.T).squeeze()` and takes
`similarity.argmax().item()`; `torch.argmax` returns the first index attaining
the maximum. -/

/-- Sum of squares (the square of the L2 norm `v.norm(dim=-1)`). -/
noncomputable def sumSq (v : List ℝ) : ℝ := (v.map (fun x => x * x)).sum

/-- Dot product of two feature vectors (`image_features @ text_features.T`). -/
noncomputable def dotList : List ℝ → List ℝ → ℝ
  | x :: xs, y :: ys => x * y + dotList xs ys
  | _, _ => 0

/-- `features / features.norm(dim=-1, keepdim=True)`. -/
noncomputable def l2normalize (v : List ℝ) : List ℝ :=
  v.map (fun x => x / Real.sqrt (sumSq v))

/-- Cosine similarity of two vectors. -/
noncomputable def cosineSim (u v : List ℝ) : ℝ :=
  dotList u v / (Real.sqrt (sumSq u) * Real.sqrt (sumSq v))

/-- The similarity row `100.0 * image_features @ text_features.T` after both
features were normalized in place. -/
noncomputable def clipSimilarities (imgs : List (List ℝ)) (txt : List ℝ) : List ℝ :=
  imgs.map (fun im => 100 * dotList (l2normalize im) (l2normalize txt))

/-- `torch.argmax` over a vector: the first index attaining the maximum
(`none` on an empty vector, where torch raises). -/
noncomputable def torchArgmax (xs : List ℝ) : Option Nat :=
  List.argmax (fun i => xs.getD i 0) (List.range xs.length)

/-- `best_index = similarity.argmax().item()` for the CLIP branch. -/
noncomputable def clipBestIndex (imgs : List (List ℝ)) (txt : List ℝ) : Option Nat :=
  torchArgmax (clipSimilarities imgs txt)

theorem dotList_map_div (a b : ℝ) :
    ∀ u v : List ℝ,
      dotList (u.map (fun x => x / a)) (v.map (fun x => x / b)) = dotList u v / (a * b) := by
  intro u
  induction u with
  | nil => intro v; simp [dotList]
  | cons x xs ih =>
    intro v
    cases v with
    | nil => simp [dotList]
    | cons y ys =>
      simp only [List.map_cons, dotList, ih]
      rw [div_mul_div_comm, div_add_div_same]

/-- Normalizing both vectors turns the dot product into cosine similarity. -/
theorem dotList_l2normalize (u v : List ℝ) :
    dotList (l2normalize u) (l2normalize v) = cosineSim u v := by
  unfold l2normalize cosineSim
  exact dotList_map_div _ _ u v

theorem clipSimilarities_getD (imgs : List (List ℝ)) (txt : List ℝ) {j : Nat}
    (hj : j < imgs.length) :
    (clipSimilarities imgs txt).getD j 0 = 100 * cosineSim (imgs.getD j []) txt := by
  unfold clipSimilarities
  rw [List.getD_eq_getElem?_getD, List.getD_eq_getElem?_getD,
    List.getElem?_eq_getElem (by simpa using hj), List.getElem?_eq_getElem hj]
  simp [dotList_l2normalize]

theorem indexOf_range {k n : Nat} (h : k < n) : (List.range n).indexOf k = k := by
  have hmem : k ∈ List.range n := List.mem_range.mpr h
  have hlt : (List.range n).indexOf k < (List.range n).length :=
    List.indexOf_lt_length.mpr hmem
  have h1 := List.getElem_indexOf hlt
  rwa [List.getElem_range] at h1

theorem toString_intOfNat (j : Nat) : toString ((j : Int)) = toString j := rfl

end Chat2SVG

open Chat2SVG

/-! # Claim theorems -/

/-- C2: for every non-negative `refine_rounds = N`, a successful run produces
exactly `N + 1` candidates, indexed `0` through `N` in that order (one initial
generation at index 0 followed by exactly `N` refinements), each carrying the
model's raw response for its iteration. -/
theorem C2_run_produces_n_plus_one_candidates (resp : Nat → String)
    (pngDir target : String) (N : Nat) :
    (runCandidates resp pngDir target N).length = N + 1 ∧
      (runCandidates resp pngDir target N).map Candidate.index = List.range (N + 1) ∧
      ∀ k, k ≤ N →
        ∃ c, (runCandidates resp pngDir target N).get? k = some c ∧
          c.index = k ∧ c.rawResponse = resp k := by
  have hlen := runCandidates_length resp pngDir target N
  refine ⟨hlen, ?_, ?_⟩
  · apply List.ext_getElem?
    intro k
    by_cases hk : k ≤ N
    · have h := runCandidates_get resp pngDir target N k hk
      rw [List.get?_eq_getElem?] at h
      rw [List.getElem?_map, h, List.getElem?_range (by omega)]
      rfl
    · have h1 : ((runCandidates resp pngDir target N).map Candidate.index)[k]? = none := by
        rw [List.getElem?_eq_none_iff]
        simpa [hlen] using by omega
      have h2 : (List.range (N + 1))[k]? = none := by
        rw [List.getElem?_eq_none_iff]
        simpa using by omega
      rw [h1, h2]
  · intro k hk
    exact ⟨_, runCandidates_get resp pngDir target N k hk, rfl, rfl⟩

/-- C2 witness at `N = 2`. -/
theorem C2_run_produces_n_plus_one_candidates_witness :
    (runCandidates (fun i => toString i) "png" "cat" 2).length = 2 + 1 ∧
      (runCandidates (fun i => toString i) "png" "cat" 2).map Candidate.index =
        List.range (2 + 1) ∧
      ∀ k, k ≤ 2 →
        ∃ c, (runCandidates (fun i => toString i) "png" "cat" 2).get? k = some c ∧
          c.index = k ∧ c.rawResponse = toString k :=
  C2_run_produces_n_plus_one_candidates (fun i => toString i) "png" "cat" 2

/-- C3: for each refinement iteration `1 ≤ i ≤ refine_rounds`, the `svg_refine`
call for candidate `i` passes exactly one reference image — candidate `i - 1`'s
render — and occurs in the trace strictly after that render was produced; the
expansion call and the initial `write_svg_code` call pass no image. -/
theorem C3_refine_conditioned_on_previous_render (pngDir target : String) (N i : Nat)
    (h1 : 1 ≤ i) (hN : i ≤ N) :
    (mainTrace pngDir target N).get? (2 * i + 1) =
        some (.send "svg_refine" [pngPath pngDir target (i - 1)]) ∧
      (mainTrace pngDir target N).get? (2 * i) =
        some (.render (pngPath pngDir target (i - 1))) ∧
      2 * i < 2 * i + 1 ∧
      (mainTrace pngDir target N).get? 0 = some (.send "expand_text_prompt" []) ∧
      (mainTrace pngDir target N).get? 1 = some (.send "write_svg_code" []) := by
  obtain ⟨hr, hs⟩ := mainTrace_refine_events pngDir target N i h1 hN
  exact ⟨hs, hr, by omega, rfl, rfl⟩

/-- C3 witness at `N = 2`, `i = 2`. -/
theorem C3_refine_conditioned_on_previous_render_witness :
    (mainTrace "png" "cat" 2).get? (2 * 2 + 1) =
        some (.send "svg_refine" [pngPath "png" "cat" (2 - 1)]) ∧
      (mainTrace "png" "cat" 2).get? (2 * 2) =
        some (.render (pngPath "png" "cat" (2 - 1))) ∧
      2 * 2 < 2 * 2 + 1 ∧
      (mainTrace "png" "cat" 2).get? 0 = some (.send "expand_text_prompt" []) ∧
      (mainTrace "png" "cat" 2).get? 1 = some (.send "write_svg_code" []) :=
  C3_refine_conditioned_on_previous_render "png" "cat" 2 2 (by decide) (by decide)

/-- C4: the rank-based scorer returns the first element of the model's 1-based
ordering minus one; in particular the ordering `[2, 1, 3]` yields best index 1. -/
theorem C4_rank_scorer_head_minus_one (ranking : List Int) (r0 : Int)
    (h : ranking.head? = some r0) :
    imageRewardBestIndex ranking = .ok (r0 - 1) ∧
      imageRewardBestIndex [2, 1, 3] = .ok 1 := by
  constructor
  · unfold imageRewardBestIndex
    rw [h]
  · rfl

/-- C4 witness on the ordering `[5, 1, 3]`. -/
theorem C4_rank_scorer_head_minus_one_witness :
    imageRewardBestIndex [5, 1, 3] = .ok (5 - 1) ∧
      imageRewardBestIndex [2, 1, 3] = .ok 1 :=
  C4_rank_scorer_head_minus_one [5, 1, 3] 5 rfl

/-- C6 refuted: only the handler guards against an empty render set.  The
api-wrapper/CLI selector passes the empty glob straight to the external ranking
model; if that model answers with the 1-based ordering `[1]`, the run silently
returns `best_index = 0` and even performs the canonical copy — no descriptive
ScoringError anywhere, exactly what the claim forbids. -/
theorem C6_counterexample :
    apiSelectBestSvg "out" none "cat" "a cat" [] (fun _ _ => [1]) =
        .ok { src := "out/cat/stage_1/svg_logs/cat_0.svg",
              dest := "out/cat/cat_template.svg", bestIndex := 0 } ∧
      sortedPngs (apiDirs "out" none "cat").pngDir "cat" [] = [] :=
  ⟨rfl, rfl⟩

/-- C6 amended: only the serverless handler fails fast on an empty image
sequence, with the descriptive error and no index; the CLI/api-wrapper selector
has no such guard — its outcome on an empty sequence is dictated entirely by
whatever the external ranking model returns (head of the ordering minus one,
flowing through unchecked). -/
theorem C6_amended_empty_sequence (svgDir pngDir target prompt : String)
    (inferenceRank : String → List String → List Int) :
    selectBestSvg svgDir pngDir target prompt [] inferenceRank =
        .error "No PNG files found for ranking" ∧
      ∀ (base : String) (folder : Option String) (r0 : Int),
        (inferenceRank prompt []).head? = some r0 →
        apiSelectBestSvg base folder target prompt [] inferenceRank =
          .ok { src := (apiDirs base folder target).svgDir ++ "/" ++ target ++ "_" ++
                  toString (r0 - 1) ++ ".svg",
                dest := (apiDirs base folder target).rootDir ++ "/" ++ target ++
                  "_template.svg",
                bestIndex := r0 - 1 } := by
  refine ⟨rfl, ?_⟩
  intro base folder r0 hr0
  have hempty : sortedPngs (apiDirs base folder target).pngDir target [] = [] := rfl
  simp only [apiSelectBestSvg, hempty]
  unfold imageRewardBestIndex
  rw [hr0]

/-- C6 amended witness: handler errors on the empty sequence; the api-wrapper
selector, fed a ranker answering `[1]` on the empty sequence, returns index 0. -/
theorem C6_amended_empty_sequence_witness :
    selectBestSvg "s" "p" "cat" "a cat" [] (fun _ _ => [1]) =
        .error "No PNG files found for ranking" ∧
      apiSelectBestSvg "out" none "cat" "a cat" [] (fun _ _ => [1]) =
        .ok { src := (apiDirs "out" none "cat").svgDir ++ "/" ++ "cat" ++ "_" ++
                toString ((1 : Int) - 1) ++ ".svg",
              dest := (apiDirs "out" none "cat").rootDir ++ "/" ++ "cat" ++
                "_template.svg",
              bestIndex := (1 : Int) - 1 } :=
  ⟨(C6_amended_empty_sequence "s" "p" "cat" "a cat" (fun _ _ => [1])).1,
   (C6_amended_empty_sequence "s" "p" "cat" "a cat" (fun _ _ => [1])).2 "out" none 1 rfl⟩

/-- C1 refuted: with candidate 1's render missing among candidates {0, 1, 2}, the
scorer is shown `[cat_0.png, cat_2.png]` and prefers its second entry (true
candidate 2), but the selector returns `best_index = 1` — naming exactly the
candidate whose render failed, because the scorer's position is never remapped. -/
theorem C1_counterexample :
    selectBestSvg "s" "p" "cat" "a cat" [0, 2] (fun _ _ => [2, 1]) =
        .ok ("s/cat_1.svg", 1) ∧
      (1 : Nat) ∉ ([0, 2] : List Nat) :=
  ⟨rfl, by decide⟩

/-- C1 amended: the selector scores the lexicographically sorted render files and
uses the scorer's 1-based position minus one directly as `best_index`, with no
remapping; when all candidates `0..N` have renders and `N ≤ 9`, that sorted
sequence is exactly index order, so the selected index is the true candidate
index of the scorer's winner and names a rendered candidate. -/
theorem C1_amended_position_is_index (svgDir pngDir target prompt : String) (N : Nat)
    (hN : N ≤ 9) (inferenceRank : String → List String → List Int) (j : Nat) (hj : j ≤ N)
    (hrank : (inferenceRank prompt ((List.range (N + 1)).map (pngPath pngDir target))).head? =
      some ((j : Int) + 1)) :
    selectBestSvg svgDir pngDir target prompt (List.range (N + 1)) inferenceRank =
        .ok (svgPath svgDir target j, (j : Int)) ∧
      j ∈ List.range (N + 1) ∧
      ((List.range (N + 1)).map (pngPath pngDir target)).get? j =
        some (pngPath pngDir target j) := by
  have hsort := sortedPngs_all_present pngDir target N hN
  refine ⟨?_, List.mem_range.mpr (by omega), ?_⟩
  · simp only [selectBestSvg, hsort]
    rw [if_neg (by simp)]
    unfold imageRewardBestIndex
    rw [hrank]
    simp only [add_sub_cancel_right]
    unfold svgPath
    rw [toString_intOfNat]
  · rw [List.get?_eq_getElem?, List.getElem?_map, List.getElem?_range (by omega)]
    rfl

/-- C5: on a non-empty image sequence the similarity scorer returns the index of
maximum cosine similarity to the prompt embedding; ties go to the lowest index,
and the returned index is unique (so identical inputs always yield it). -/
theorem C5_similarity_scorer_argmax (imgs : List (List ℝ)) (txt : List ℝ)
    (h : imgs ≠ []) :
    ∃ i, clipBestIndex imgs txt = some i ∧ i < imgs.length ∧
      (∀ j, j < imgs.length →
        cosineSim (imgs.getD j []) txt ≤ cosineSim (imgs.getD i []) txt) ∧
      (∀ j, j < imgs.length →
        cosineSim (imgs.getD i []) txt ≤ cosineSim (imgs.getD j []) txt → i ≤ j) ∧
      (∀ i', clipBestIndex imgs txt = some i' → i' = i) := by
  have hlen : (clipSimilarities imgs txt).length = imgs.length := List.length_map _ _
  have hpos : 0 < (clipSimilarities imgs txt).length := by
    rw [hlen]
    exact List.length_pos.mpr h
  cases harg : List.argmax (fun i => (clipSimilarities imgs txt).getD i 0)
      (List.range (clipSimilarities imgs txt).length) with
  | none =>
    exfalso
    have := List.argmax_eq_none.mp harg
    rw [List.range_eq_nil] at this
    omega
  | some m =>
    have hmem : m ∈ List.argmax (fun i => (clipSimilarities imgs txt).getD i 0)
        (List.range (clipSimilarities imgs txt).length) := by
      rw [Option.mem_def]
      exact harg
    have hmlt : m < imgs.length := by
      have := List.argmax_mem hmem
      rw [List.mem_range] at this
      omega
    have hbest : clipBestIndex imgs txt = some m := harg
    refine ⟨m, hbest, hmlt, ?_, ?_, ?_⟩
    · intro j hj
      have hjmem : j ∈ List.range (clipSimilarities imgs txt).length :=
        List.mem_range.mpr (by omega)
      have hle := List.le_of_mem_argmax hjmem hmem
      rw [clipSimilarities_getD imgs txt hj, clipSimilarities_getD imgs txt hmlt] at hle
      exact (mul_le_mul_left (by norm_num : (0 : ℝ) < 100)).mp hle
    · intro j hj hcos
      have hjmem : j ∈ List.range (clipSimilarities imgs txt).length :=
        List.mem_range.mpr (by omega)
      have hfle : (fun i => (clipSimilarities imgs txt).getD i 0) m ≤
          (fun i => (clipSimilarities imgs txt).getD i 0) j := by
        simp only
        rw [clipSimilarities_getD imgs txt hj, clipSimilarities_getD imgs txt hmlt]
        exact (mul_le_mul_left (by norm_num : (0 : ℝ) < 100)).mpr hcos
      have hidx := List.index_of_argmax hmem hjmem hfle
      rwa [indexOf_range (by omega), indexOf_range (by omega)] at hidx
    · intro i' h'
      rw [hbest] at h'
      exact (Option.some.inj h').symm

/-- C5 witness on a concrete two-image sequence. -/
theorem C5_similarity_scorer_argmax_witness :
    ∃ i, clipBestIndex [[1, 0], [0, 1]] [1, 0] = some i ∧ i < 2 ∧
      (∀ j, j < 2 →
        cosineSim ([([1, 0] : List ℝ), [0, 1]].getD j []) [1, 0] ≤
          cosineSim ([([1, 0] : List ℝ), [0, 1]].getD i []) [1, 0]) ∧
      (∀ j, j < 2 →
        cosineSim ([([1, 0] : List ℝ), [0, 1]].getD i []) [1, 0] ≤
          cosineSim ([([1, 0] : List ℝ), [0, 1]].getD j []) [1, 0] → i ≤ j) ∧
      (∀ i', clipBestIndex [[1, 0], [0, 1]] [1, 0] = some i' → i' = i) :=
  C5_similarity_scorer_argmax [[1, 0], [0, 1]] [1, 0] (by simp)

/-- C7 refuted: `refine_iter = -1` is an invalid iteration count by the repo's own
validator (`RunPodConfig.validate_input`), yet the handler — which never invokes
that validator — performs the external generation calls and reports no
configuration error. -/
theorem C7_counterexample :
    (handlerRun "p"
        { prompt := some "A cat", target := "cat", refineIter := -1,
          rewardModel := "ImageReward" }).2 = none ∧
      (handlerRun "p"
        { prompt := some "A cat", target := "cat", refineIter := -1,
          rewardModel := "ImageReward" }).1 ≠ [] ∧
      validateInput
        { prompt := some (.pyStr "A cat"), refineIter := some (.pyInt (-1)) } =
        .ok (false, "Invalid refine_iter: -1. Must be a non-negative integer") := by
  refine ⟨rfl, ?_, rfl⟩
  simp [handlerRun, mainTrace]

/-- C7 amended: an unrecognized scorer variant name makes the serverless handler
return the configuration error before any external call; the CLI path instead
performs the whole generation (a non-empty external trace) before its
`assert` rejects the variant name. -/
theorem C7_amended_variant_check (pngDir : String) (inp : HandlerInput) (p : String)
    (hp : inp.prompt = some p) (h1 : inp.rewardModel ≠ "ImageReward")
    (h2 : inp.rewardModel ≠ "CLIP") :
    handlerRun pngDir inp =
        ([], some ("Invalid reward_model: " ++ inp.rewardModel ++
          ". Must be 'ImageReward' or 'CLIP'")) ∧
      ∀ (target : String) (N : Nat) (rm : String), rm ≠ "ImageReward" → rm ≠ "CLIP" →
        (mainRunSelect pngDir target N rm).2 =
            .error "Only `ImageReward` and `CLIP` are supported" ∧
          (mainRunSelect pngDir target N rm).1 = mainTrace pngDir target N ∧
          mainTrace pngDir target N ≠ [] := by
  constructor
  · unfold handlerRun
    rw [hp]
    rw [if_neg (by simp [h1, h2])]
  · intro target N rm hr1 hr2
    refine ⟨?_, ?_, by simp [mainTrace]⟩
    · unfold mainRunSelect
      rw [if_neg (by simp [hr1, hr2])]
    · unfold mainRunSelect
      rw [if_neg (by simp [hr1, hr2])]

/-- C7 amended witness: a request with `reward_model = "BLIP"`. -/
theorem C7_amended_variant_check_witness :
    handlerRun "p"
        { prompt := some "A cat", target := "cat", refineIter := 2,
          rewardModel := "BLIP" } =
        ([], some ("Invalid reward_model: " ++ "BLIP" ++
          ". Must be 'ImageReward' or 'CLIP'")) ∧
      ∀ (target : String) (N : Nat) (rm : String), rm ≠ "ImageReward" → rm ≠ "CLIP" →
        (mainRunSelect "p" target N rm).2 =
            .error "Only `ImageReward` and `CLIP` are supported" ∧
          (mainRunSelect "p" target N rm).1 = mainTrace "p" target N ∧
          mainTrace "p" target N ≠ [] :=
  C7_amended_variant_check "p"
    { prompt := some "A cat", target := "cat", refineIter := 2, rewardModel := "BLIP" }
    "A cat" rfl (by decide) (by decide)

/-- The cache reuses the loaded model exactly when one is loaded and the requested
name matches the last one. -/
theorem initializeRewardModel_noLoad (st : SVGGeneratorState) (name : String) (fresh : Nat)
    (hm : st.rewardModel ≠ none) (hn : st.rewardModelName = some name) :
    initializeRewardModel st name fresh = (st, false) := by
  unfold initializeRewardModel
  rw [if_neg]
  push_neg
  exact ⟨hm, by rw [hn]⟩

/-- C8 refuted: the cache keeps only the most recently used variant, so the call
sequence ImageReward, CLIP, ImageReward loads the ImageReward model twice in one
process — "loaded at most once per variant name" fails. -/
theorem C8_counterexample :
    loadCount ["ImageReward", "CLIP", "ImageReward"] "ImageReward" = 2 ∧
      ¬ loadCount ["ImageReward", "CLIP", "ImageReward"] "ImageReward" ≤ 1 := by
  decide

/-- C8 amended: if the requested variant name equals the name used by the previous
scoring call (and a model is loaded), the previous instance is reused with no new
load — both at the state level and for consecutive equal names in a call
sequence. -/
theorem C8_amended_reuse_previous (st : SVGGeneratorState) (name : String) (fresh : Nat)
    (hm : st.rewardModel ≠ none) (hn : st.rewardModelName = some name) :
    initializeRewardModel st name fresh = (st, false) ∧
      ∀ (st' : SVGGeneratorState) (f : Nat) (a : String) (rest : List String),
        (loadSequence st' f (a :: a :: rest)).get? 1 = some (a, false) := by
  refine ⟨initializeRewardModel_noLoad st name fresh hm hn, ?_⟩
  intro st' f a rest
  show (loadSequence st' f (a :: a :: rest)).get? 1 = some (a, false)
  simp only [loadSequence]
  have h2 : initializeRewardModel (initializeRewardModel st' a f).1 a (f + 1) =
      ((initializeRewardModel st' a f).1, false) := by
    unfold initializeRewardModel
    by_cases hc : st'.rewardModel = none ∨ st'.rewardModelName ≠ some a
    · rw [if_pos hc]
      simp
    · rw [if_neg hc]
      push_neg at hc
      rw [if_neg]
      push_neg
      exact hc
  simp only [List.get?_cons_succ, List.get?_cons_zero, h2]

/-- C8 amended witness. -/
theorem C8_amended_reuse_previous_witness :
    initializeRewardModel { rewardModel := some 7, rewardModelName := some "CLIP" }
        "CLIP" 9 =
        ({ rewardModel := some 7, rewardModelName := some "CLIP" }, false) ∧
      ∀ (st' : SVGGeneratorState) (f : Nat) (a : String) (rest : List String),
        (loadSequence st' f (a :: a :: rest)).get? 1 = some (a, false) :=
  C8_amended_reuse_previous { rewardModel := some 7, rewardModelName := some "CLIP" }
    "CLIP" 9 (by decide) rfl

/-- C9: the winning candidate's SVG is copied to a canonical destination that
depends only on the output base and `target` — independent of how many
candidates there were, which renders existed, and which index won — while the
copy source is the winner's per-iteration artifact. -/
theorem C9_canonical_output_path (base target prompt1 prompt2 : String)
    (present1 present2 : List Nat) (rank1 rank2 : String → List String → List Int)
    (r1 r2 : CopyResult)
    (h1 : apiSelectBestSvg base none target prompt1 present1 rank1 = .ok r1)
    (h2 : apiSelectBestSvg base none target prompt2 present2 rank2 = .ok r2) :
    r1.dest = base ++ "/" ++ target ++ "/" ++ target ++ "_template.svg" ∧
      r1.dest = r2.dest ∧
      r1.src = (apiDirs base none target).svgDir ++ "/" ++ target ++ "_" ++
        toString r1.bestIndex ++ ".svg" := by
  simp only [apiSelectBestSvg] at h1 h2
  cases hb1 : imageRewardBestIndex
      (rank1 prompt1 (sortedPngs (apiDirs base none target).pngDir target present1)) with
  | error e => rw [hb1] at h1; exact absurd h1 (by simp)
  | ok bi1 =>
    rw [hb1] at h1
    cases hb2 : imageRewardBestIndex
        (rank2 prompt2 (sortedPngs (apiDirs base none target).pngDir target present2)) with
    | error e => rw [hb2] at h2; exact absurd h2 (by simp)
    | ok bi2 =>
      rw [hb2] at h2
      simp only [Except.ok.injEq] at h1 h2
      subst h1
      subst h2
      exact ⟨rfl, rfl, rfl⟩

/-- C9 witness: two runs over the same target with different candidate sets and
different scorers write the same canonical path. -/
theorem C9_canonical_output_path_witness :
    ("out/cat/cat_template.svg" : String) =
        "out" ++ "/" ++ "cat" ++ "/" ++ "cat" ++ "_template.svg" ∧
      ("out/cat/cat_template.svg" : String) = "out/cat/cat_template.svg" ∧
      ("out/cat/stage_1/svg_logs/cat_0.svg" : String) =
        (apiDirs "out" none "cat").svgDir ++ "/" ++ "cat" ++ "_" ++
          toString (0 : Int) ++ ".svg" := by
  have h := C9_canonical_output_path "out" "cat" "a" "b" [0] [0, 1, 2]
    (fun _ _ => [1]) (fun _ _ => [3, 1, 2])
    { src := "out/cat/stage_1/svg_logs/cat_0.svg", dest := "out/cat/cat_template.svg",
      bestIndex := 0 }
    { src := "out/cat/stage_1/svg_logs/cat_2.svg", dest := "out/cat/cat_template.svg",
      bestIndex := 2 }
    rfl rfl
  exact h

/-- The too-high message can never coincide with the negative/non-integer message,
whatever values are interpolated. -/
theorem refine_iter_msgs_distinct (a b : String) :
    "Invalid refine_iter: " ++ a ++ ". Must be a non-negative integer" ≠
      "refine_iter too high: " ++ b ++ ". Maximum is 10 to prevent timeouts" := by
  intro h
  have h2 := congrArg String.data h
  simp only [String.data_append, List.cons_append] at h2
  injection h2 with hc _
  exact absurd hc (by decide)

/-- C10 refuted on "a distinct error message": the integer `-1` and the
non-integer string `"-1"` are rejected with literally identical messages (the
negative and non-integer cases share one f-string template). -/
theorem C10_counterexample :
    validateInput
        { prompt := some (.pyStr "A cat"), refineIter := some (.pyInt (-1)) } =
        .ok (false, "Invalid refine_iter: -1. Must be a non-negative integer") ∧
      validateInput
        { prompt := some (.pyStr "A cat"), refineIter := some (.pyStr "-1") } =
        .ok (false, "Invalid refine_iter: -1. Must be a non-negative integer") :=
  ⟨rfl, rfl⟩

/-- C10 amended: with the other parameters valid, `validate_input` accepts
`refine_iter` iff it is an integer (including Python `bool`) in `0..10`;
negative integers and non-integers are rejected with one shared message template,
and values above 10 with a different message that can never coincide with it. -/
theorem C10_amended_refine_iter_validation (p : String) (hp : ¬ pyStrip p = "")
    (rm : PyVal) (hrm : rm = .pyStr "ImageReward" ∨ rm = .pyStr "CLIP")
    (vb : PyVal) (hvb1 : pyIsInt vb = true) (hvb2 : 0 < pyToInt vb) (ri : PyVal) :
    (∀ n : Int, ri = .pyInt n →
        (validateInput (jobWith p rm vb ri) = .ok (true, "") ↔ 0 ≤ n ∧ n ≤ 10)) ∧
      (∀ n : Int, ri = .pyInt n → n < 0 →
        validateInput (jobWith p rm vb ri) =
          .ok (false, "Invalid refine_iter: " ++ toString n ++
            ". Must be a non-negative integer")) ∧
      (∀ n : Int, ri = .pyInt n → 10 < n →
        validateInput (jobWith p rm vb ri) =
          .ok (false, "refine_iter too high: " ++ toString n ++
            ". Maximum is 10 to prevent timeouts")) ∧
      (pyIsInt ri = false →
        validateInput (jobWith p rm vb ri) =
          .ok (false, "Invalid refine_iter: " ++ pyFormat ri ++
            ". Must be a non-negative integer")) ∧
      (∀ a b : String,
        "Invalid refine_iter: " ++ a ++ ". Must be a non-negative integer" ≠
          "refine_iter too high: " ++ b ++ ". Maximum is 10 to prevent timeouts") := by
  have hbase : ∀ ri' : PyVal,
      validateInput (jobWith p rm vb ri') =
        (if ¬ pyIsInt ri' ∨ pyToInt ri' < 0 then
          .ok (false, "Invalid refine_iter: " ++ pyFormat ri' ++
            ". Must be a non-negative integer")
        else if pyToInt ri' > 10 then
          .ok (false, "refine_iter too high: " ++ pyFormat ri' ++
            ". Maximum is 10 to prevent timeouts")
        else .ok (true, "")) := by
    intro ri'
    unfold jobWith validateInput
    dsimp only [Option.getD_some]
    rw [if_neg hp, if_neg (not_not_intro hrm), if_neg (by rw [hvb1]; simp; omega)]
  refine ⟨?_, ?_, ?_, ?_, refine_iter_msgs_distinct⟩
  · intro n hn
    subst hn
    rw [hbase]
    constructor
    · intro h
      by_cases h1 : n < 0
      · rw [if_pos (by simp [pyIsInt, pyToInt, h1])] at h
        simp at h
      · by_cases h2 : 10 < n
        · rw [if_neg (by simp [pyIsInt, pyToInt]; omega),
            if_pos (by simp [pyToInt]; omega)] at h
          simp at h
        · omega
    · intro h
      rw [if_neg (by simp [pyIsInt, pyToInt]; omega), if_neg (by simp [pyToInt]; omega)]
  · intro n hn hneg
    subst hn
    rw [hbase, if_pos (by simp [pyIsInt, pyToInt, hneg])]
    rfl
  · intro n hn hhigh
    subst hn
    rw [hbase, if_neg (by simp [pyIsInt, pyToInt]; omega),
      if_pos (by simp [pyToInt]; omega)]
    rfl
  · intro hni
    rw [hbase, if_pos (by rw [hni]; simp)]

/-- C10 amended witness at `refine_iter = 11`. -/
theorem C10_amended_refine_iter_validation_witness :
    (∀ n : Int, PyVal.pyInt 11 = PyVal.pyInt n →
        (validateInput (jobWith "A cat" (.pyStr "CLIP") (.pyInt 512) (.pyInt 11)) =
            .ok (true, "") ↔ 0 ≤ n ∧ n ≤ 10)) ∧
      (∀ n : Int, PyVal.pyInt 11 = PyVal.pyInt n → n < 0 →
        validateInput (jobWith "A cat" (.pyStr "CLIP") (.pyInt 512) (.pyInt 11)) =
          .ok (false, "Invalid refine_iter: " ++ toString n ++
            ". Must be a non-negative integer")) ∧
      (∀ n : Int, PyVal.pyInt 11 = PyVal.pyInt n → 10 < n →
        validateInput (jobWith "A cat" (.pyStr "CLIP") (.pyInt 512) (.pyInt 11)) =
          .ok (false, "refine_iter too high: " ++ toString n ++
            ". Maximum is 10 to prevent timeouts")) ∧
      (pyIsInt (.pyInt 11) = false →
        validateInput (jobWith "A cat" (.pyStr "CLIP") (.pyInt 512) (.pyInt 11)) =
          .ok (false, "Invalid refine_iter: " ++ pyFormat (.pyInt 11) ++
            ". Must be a non-negative integer")) ∧
      (∀ a b : String,
        "Invalid refine_iter: " ++ a ++ ". Must be a non-negative integer" ≠
          "refine_iter too high: " ++ b ++ ". Maximum is 10 to prevent timeouts") :=
  C10_amended_refine_iter_validation "A cat" (by decide)
    (.pyStr "CLIP") (Or.inr rfl) (.pyInt 512) rfl (by decide) (.pyInt 11)

/-- C1 amended witness: three candidates all rendered, scorer prefers position 2
(candidate 1). -/
theorem C1_amended_position_is_index_witness :
    selectBestSvg "s" "p" "cat" "a cat" (List.range (2 + 1)) (fun _ _ => [2, 1, 3]) =
        .ok (svgPath "s" "cat" 1, (1 : Int)) ∧
      1 ∈ List.range (2 + 1) ∧
      ((List.range (2 + 1)).map (pngPath "p" "cat")).get? 1 =
        some (pngPath "p" "cat" 1) :=
  C1_amended_position_is_index "s" "p" "cat" "a cat" 2 (by decide)
    (fun _ _ => [2, 1, 3]) 1 (by decide) rfl
